import Mathlib

set_option maxRecDepth 100000

/-!
# Verification of the USD file-format plugin test harness

A shallow embedding, in Lean 4, of the pure computational core of the
repository's Python test harness (`test/test.py`): the pixel-similarity
image comparator, the usdchecker diagnostic pipeline (output truncation,
line filtering, classification, filename truncation), the results-document
append logic, the baseline lookup and regression gate, and the
write/read paths of the diagnostics baseline document.

Strings are modelled as `List Char` (a faithful model of Python `str` for
the ASCII data the harness manipulates) so that every operation is a
structurally recursive, kernel-computable function.  Machine floats in the
source appear only as exact ratios of small integers, modelled as `ℚ`.
Fallible operations (image decoding, JSON parsing) return `Option`/`Except`.
-/

namespace UsdPluginTest

/-- Python `str` is modelled as a list of characters. -/
abbrev Str := List Char

/-! ## Generic string helpers (Python `str` semantics) -/

/-- Test whether `needle` occurs at the start of `hay` (Python `hay.startswith(needle)`). -/
def startsWith : Str → Str → Bool
  | _, [] => true
  | [], _ :: _ => false
  | h :: hs, n :: ns => h = n && startsWith hs ns

/-- Helper for `strFind`: scan for `needle`, counting the current index up from `i`. -/
def strFindAux (needle : Str) : Str → Nat → Option Nat
  | s, i =>
    if startsWith s needle then some i
    else match s with
      | [] => none
      | _ :: t => strFindAux needle t (i + 1)

/-- Python `hay.find(needle)`: index of the first occurrence, `none` when absent
(Python returns `-1`; we model the sentinel with `Option`). -/
def strFind (hay needle : Str) : Option Nat :=
  strFindAux needle hay 0

/-- Python `hay.find(needle, start)`: first occurrence at or after index `start`. -/
def strFindFrom (hay needle : Str) (start : Nat) : Option Nat :=
  (strFind (hay.drop start) needle).map (· + start)

/-- Python `needle in hay`: substring containment. -/
def containsSub (hay needle : Str) : Bool :=
  (strFind hay needle).isSome

/-- Python `s.split(sep)` for a one-character separator, keeping empty pieces
(`"".split(sep) == [""]`, and a trailing separator yields a final `""`). -/
def splitOnChar (sep : Char) : Str → List Str
  | [] => [[]]
  | c :: t =>
    if c = sep then [] :: splitOnChar sep t
    else
      match splitOnChar sep t with
      | [] => [[c]]
      | l :: ls => (c :: l) :: ls

/-- Python whitespace for `str.strip()`. -/
def isPyWs (c : Char) : Bool :=
  c = ' ' || c = '\t' || c = '\n' || c = '\r' || c = '\x0b' || c = '\x0c'

/-- Python `s.strip()`: drop leading and trailing whitespace. -/
def stripStr (s : Str) : Str :=
  ((s.dropWhile isPyWs).reverse.dropWhile isPyWs).reverse

/-- Python `sep.join(parts)`. -/
def joinWith (sep : Str) : List Str → Str
  | [] => []
  | [p] => p
  | p :: rest => p ++ sep ++ joinWith sep rest

/-! ## ImageComparator (`compare_images_with_similarity_threshold`)

`cv2.imread` yields a height × width × channels array of 8-bit values, or
`None` on decode failure; we model a decoded image as its shape plus a pixel
function, and a decode result as an `Option Image`.  `cv2.absdiff` /
`cv2.threshold(..., 0, 255, THRESH_BINARY)` / `np.count_nonzero(... == 0)`
jointly count the array entries (per pixel *per channel*) where the two
images agree exactly. -/

/-- A decoded raster image: shape `(h, w, c)` and a pixel-channel value
function (`pix i j k` is channel `k` of pixel `(i, j)`). -/
structure Image where
  h : Nat
  w : Nat
  c : Nat
  pix : Nat → Nat → Nat → Nat

/-- Number of array entries (pixel-channel pairs) on which the two images agree
exactly: `np.count_nonzero(binary_difference == 0)` where `binary_difference`
is the thresholded absolute difference (an entry is `0` iff the two values are
equal). -/
def similarPixels (i1 i2 : Image) : Nat :=
  ((List.range i1.h).map (fun i =>
    ((List.range i1.w).map (fun j =>
      ((List.range i1.c).map (fun k =>
        if i1.pix i j k = i2.pix i j k then 1 else 0)).sum)).sum)).sum

/-- Source: `total_pixels = img1.shape[0] * img1.shape[1] * img1.shape[2]` (despite the
name, this is the number of pixel-channel entries). -/
def totalPixels (i1 : Image) : Nat :=
  i1.h * i1.w * i1.c

/-- Source: `similarity_ratio = similar_pixels / total_pixels`, as an exact rational. -/
def similarityRatio (i1 i2 : Image) : ℚ :=
  (similarPixels i1 i2 : ℚ) / (totalPixels i1 : ℚ)

/-- Comparison failure kinds: `ValueError` raised when a decode failed. -/
inductive CompareError where
  | unreadable
deriving DecidableEq, Repr

/-- The comparator `compare_images_with_similarity_threshold(img1_path, img2_path, threshold)`
after decoding: takes the two `cv2.imread` results.  Raises (returns
`.error .unreadable`) when either decode failed; returns `False` on a shape
mismatch; otherwise returns whether `similarity_ratio >= similarity_threshold`. -/
def compare_images_with_similarity_threshold
    (img1 img2 : Option Image) (similarity_threshold : ℚ) :
    Except CompareError Bool :=
  match img1, img2 with
  | some i1, some i2 =>
    if i1.h = i2.h ∧ i1.w = i2.w ∧ i1.c = i2.c then
      .ok (decide (similarity_threshold ≤ similarityRatio i1 i2))
    else
      .ok false
  | _, _ => .error .unreadable

/-- Modelled from the spec: the number of *pixels* (not entries) whose channels
all match — "a pixel counts as matching only if every channel matches". -/
def specMatchingPixelCount (i1 i2 : Image) : Nat :=
  ((List.range i1.h).map (fun i =>
    ((List.range i1.w).map (fun j =>
      if (List.range i1.c).all (fun k => i1.pix i j k == i2.pix i j k) then 1
      else 0)).sum)).sum

/-- Modelled from the spec: `similarityRatio` = (count of pixels where all
channels match) / (total pixel count). -/
def specSimilarityRatio (i1 i2 : Image) : ℚ :=
  (specMatchingPixelCount i1 i2 : ℚ) / ((i1.h * i1.w : Nat) : ℚ)

/-! ## SchemaCheckRunner (`run_usdchecker`, pure part)

`run_usdchecker(file, results_file)` invokes the external validator and then
classifies its captured output.  The classification is a pure function of the
decoded standard output and standard error, embedded here. -/

/-- The preferred truncation marker, `"Total time:"`. -/
def total_time_marker : Str := "Total time:".data

/-- The fallback truncation marker, `"Write layer via Sdf API:"`. -/
def write_layer_marker : Str := "Write layer via Sdf API:".data

/-- Truncation of the validator's standard output: find `"Total time:"`
(falling back to `"Write layer via Sdf API:"` only when the former is absent)
and drop everything up to and including the next `"\n"` after the marker;
when no marker (or no following newline) is found, keep the string unchanged. -/
def truncateCheckerOutput (stdout_str : Str) : Str :=
  match strFind stdout_str total_time_marker with
  | some total_time_index =>
    match strFindFrom stdout_str "\n".data total_time_index with
    | some j => stdout_str.drop (j + 1)
    | none => stdout_str
  | none =>
    match strFind stdout_str write_layer_marker with
    | some write_layer_index =>
      match strFindFrom stdout_str "\n".data write_layer_index with
      | some j => stdout_str.drop (j + 1)
      | none => stdout_str
    | none => stdout_str

/-- Source list `ignorable_errors`: the fixed allowlist of known-benign messages. -/
def ignorable_errors : List Str :=
  ["Stage does not specify an upAxis.".data,
   "Stage does not specify its linear scale in metersPerUnit.".data]

/-- Source list `filter_out_strings`: empty lines and the sentinel success/failure markers. -/
def filter_out_strings : List Str :=
  [[], "Success!\r".data, "Failed!\r".data, "Success!".data, "Failed!".data]

/-- Source: `errors = [err for err in (stdout_str + stderr_str).split("\n") if err not in
filter_out_strings]` (with `stdout_str` already truncated). -/
def checkerLines (stdout_str stderr_str : Str) : List Str :=
  (splitOnChar '\n' (truncateCheckerOutput stdout_str ++ stderr_str)).filter
    (fun err => decide (err ∉ filter_out_strings))

/-- Source: `non_ignorable_errors = [err for err in errors if all(ignorable not in err
for ignorable in ignorable_errors)]`. -/
def nonIgnorableOf (errors : List Str) : List Str :=
  errors.filter (fun err => ignorable_errors.all (fun ignorable => !containsSub err ignorable))

/-- A validator diagnostic record, as written into the results document. -/
structure DiagnosticResult where
  filename : Str
  pass : Bool
  warnings : List Str
  errors : List Str
deriving DecidableEq, Repr

/-- Nonempty path segments of a file path (the names `pathlib.Path` exposes for
a normalized path, root-first). -/
def pathSegments (p : Str) : List Str :=
  (splitOnChar '/' p).filter (fun seg => decide (seg ≠ []))

/-- Python `path.name` on the segment list: the last segment, `""` when there is none. -/
def pathName (segs : List Str) : Str :=
  segs.getLast?.getD []

/-- The `filename` field of a `DiagnosticResult`: start from `[path.name]`,
then twice move to the parent and, when its name is nonempty, push that name
in front; join with `"/"` (the unrolled `for _ in range(2)` loop of the
source). -/
def truncated_filename (file : Str) : Str :=
  let segs0 := pathSegments file
  let parts0 := [pathName segs0]
  let segs1 := segs0.dropLast
  let parts1 := if pathName segs1 ≠ [] then pathName segs1 :: parts0 else parts0
  let segs2 := segs1.dropLast
  let parts2 := if pathName segs2 ≠ [] then pathName segs2 :: parts1 else parts1
  joinWith "/".data parts2

/-- The `DiagnosticResult` that `run_usdchecker(file, ...)` builds from the
validator's decoded standard output and standard error. -/
def run_usdchecker_result (file stdout_str stderr_str : Str) : DiagnosticResult :=
  let errors := checkerLines stdout_str stderr_str
  let non_ignorable_errors := nonIgnorableOf errors
  { filename := truncated_filename file
    pass := non_ignorable_errors.all
      (fun err => decide (err = "Success!\r".data) || decide (err = []))
    warnings := errors.filter
      (fun err => decide (err ∉ non_ignorable_errors) && decide (err ≠ []))
    errors := non_ignorable_errors }

/-! ## ResultStore: baseline lookup and the regression gate (`test_usd_checker`) -/

/-- Source: `next((res for res in baseline_results if res['filename'] == input_path),
None)`: the first baseline record whose `filename` equals `input_path`. -/
def findBaselineEntry (baseline_results : List DiagnosticResult) (input_path : Str) :
    Option DiagnosticResult :=
  baseline_results.find? (fun res => decide (res.filename = input_path))

/-- Modelled from the spec: "Locate the baseline entry whose join key matches
`currentResult.filename`" — lookup keyed on the current record's (truncated)
`filename` field rather than on the full input path. -/
def specFindBaselineEntry (baseline_results : List DiagnosticResult)
    (current : DiagnosticResult) : Option DiagnosticResult :=
  baseline_results.find? (fun res => decide (res.filename = current.filename))

/-- Outcome of the baseline comparison in `test_usd_checker`. -/
inductive RegressionVerdict where
  | skip
  | pass
  | fail
deriving DecidableEq, Repr

/-- The baseline-comparison tail of `test_usd_checker`: no matching baseline
record → return early (skip); otherwise the assertion
`current_error_count <= baseline_error_count` decides pass/fail.  Warning
counts are only logged. -/
def usd_checker_verdict (current : DiagnosticResult) (input_path : Str)
    (baseline_results : List DiagnosticResult) : RegressionVerdict :=
  match findBaselineEntry baseline_results input_path with
  | none => .skip
  | some baseline_result =>
    if current.errors.length ≤ baseline_result.errors.length then .pass else .fail

/-! ## The results document

The write path (`run_usdchecker`) serializes the whole record list with
`json.dump(existing_results, f, indent=4)`; the read path of
`test_usd_checker` reads the file back one line at a time with
`json.loads(line.strip())`.  We model the document both at the value level
(a `Json` tree) and at the text level (its list of lines). -/

/-- A JSON value (the grammar fragment the harness's documents use: strings,
booleans, integers, `null`, arrays and objects). -/
inductive Json where
  | null
  | bool (b : Bool)
  | num (n : Int)
  | str (s : Str)
  | arr (elems : List Json)
  | obj (members : List (Str × Json))

/-- The `Json` value of one `DiagnosticResult` record, with the fields in the
order the source builds the dictionary. -/
def encodeResult (r : DiagnosticResult) : Json :=
  .obj [("filename".data, .str r.filename),
        ("pass".data, .bool r.pass),
        ("warnings".data, .arr (r.warnings.map .str)),
        ("errors".data, .arr (r.errors.map .str))]

/-- The read-modify-write of `run_usdchecker` at the value level: `json.load`
the existing document (`none` models `FileNotFoundError`/`JSONDecodeError`,
replaced by `[]`), append the new record, and dump the whole list back. -/
def append_usdchecker_result (existing : Option (List Json))
    (result : DiagnosticResult) : List Json :=
  existing.getD [] ++ [encodeResult result]

/-! ### Text of the written document (`json.dump(..., indent=4)`) -/

/-- One hexadecimal digit, lower case (as `json.dump` emits in `\uXXXX`). -/
def hexDigit (n : Nat) : Char :=
  if n < 10 then Char.ofNat ('0'.toNat + n)
  else Char.ofNat ('a'.toNat + (n - 10))

/-- A `\uXXXX` escape for code point `n`. -/
def uEscape (n : Nat) : Str :=
  ['\\', 'u', hexDigit (n / 4096 % 16), hexDigit (n / 256 % 16),
   hexDigit (n / 16 % 16), hexDigit (n % 16)]

/-- How `json.dump` escapes one character (default `ensure_ascii=True`):
backslash and quote get a backslash, the common control characters get their
short escapes, other control and all non-ASCII characters get `\uXXXX`. -/
def escapeJsonChar (c : Char) : Str :=
  if c = '"' then ['\\', '"']
  else if c = '\\' then ['\\', '\\']
  else if c = '\n' then ['\\', 'n']
  else if c = '\t' then ['\\', 't']
  else if c = '\r' then ['\\', 'r']
  else if c.toNat = 8 then ['\\', 'b']
  else if c.toNat = 12 then ['\\', 'f']
  else if c.toNat < 32 ∨ c.toNat ≥ 128 then uEscape c.toNat
  else [c]

/-- A JSON string literal: quote, escaped characters, quote. -/
def jsonStrLit (s : Str) : Str :=
  '"' :: (s.map escapeJsonChar).flatten ++ ['"']

/-- A run of `n` spaces of indentation. -/
def indentStr (n : Nat) : Str :=
  List.replicate n ' '

/-- Append a `","` to the last line of a block. -/
def appendCommaLast : List Str → List Str
  | [] => []
  | [l] => [l ++ ",".data]
  | l :: rest => l :: appendCommaLast rest

/-- Join blocks of lines, separating consecutive blocks with a comma at the
end of each non-final block (how `json.dump` separates array elements and
object members). -/
def sepCommaBlocks : List (List Str) → List Str
  | [] => []
  | [b] => b
  | b :: rest => appendCommaLast b ++ sepCommaBlocks rest

/-- The lines of a JSON array of strings as `json.dump(..., indent=4)` prints
it as a field value: `[]` inline when empty, otherwise `[`, one indented
element per line, and a closing `]` at the enclosing indentation.  The first
line is later glued onto the `"key": ` prefix. -/
def strArrayValueLines (elemIndent closeIndent : Nat) (xs : List Str) : List Str :=
  match xs with
  | [] => ["[]".data]
  | _ =>
    "[".data ::
      sepCommaBlocks (xs.map (fun s => [indentStr elemIndent ++ jsonStrLit s])) ++
      [indentStr closeIndent ++ "]".data]

/-- Glue an object member's `"key": ` prefix onto the first line of its
value's lines. -/
def fieldLines (ind : Nat) (key : Str) : List Str → List Str
  | [] => []
  | v0 :: vrest => (indentStr ind ++ jsonStrLit key ++ ": ".data ++ v0) :: vrest

/-- The lines of one record inside the dumped array (object braces at
indentation 4, members at indentation 8, array elements at indentation 12). -/
def recordLines (r : DiagnosticResult) : List Str :=
  (indentStr 4 ++ "\x7b".data) ::
  sepCommaBlocks
    [fieldLines 8 "filename".data [jsonStrLit r.filename],
     fieldLines 8 "pass".data [if r.pass then "true".data else "false".data],
     fieldLines 8 "warnings".data (strArrayValueLines 12 8 r.warnings),
     fieldLines 8 "errors".data (strArrayValueLines 12 8 r.errors)] ++
  [indentStr 4 ++ "\x7d".data]

/-- The lines of the whole results document as
`json.dump(results, f, indent=4)` writes it: `[]` for the empty list,
otherwise a lone `[`, the records (comma-separated), and a lone `]`. -/
def results_document_lines (results : List DiagnosticResult) : List Str :=
  match results with
  | [] => ["[]".data]
  | _ => "[".data :: sepCommaBlocks (results.map recordLines) ++ ["]".data]

/-! ### `json.loads` (a line-sized recursive-descent parser)

`json.loads` parses one complete JSON document and rejects the input when the
text is not a full value (with only whitespace around it).  The parser below
recurses on a fuel counter for totality; `jsonLoads` supplies fuel larger
than the input length, which any terminating parse fits under. -/

/-- JSON insignificant whitespace. -/
def isJsonWs (c : Char) : Bool :=
  c = ' ' || c = '\t' || c = '\n' || c = '\r'

/-- Skip insignificant whitespace. -/
def skipJsonWs (s : Str) : Str :=
  s.dropWhile isJsonWs

/-- Value of a hexadecimal digit. -/
def hexVal (c : Char) : Option Nat :=
  if '0' ≤ c ∧ c ≤ '9' then some (c.toNat - '0'.toNat)
  else if 'a' ≤ c ∧ c ≤ 'f' then some (c.toNat - 'a'.toNat + 10)
  else if 'A' ≤ c ∧ c ≤ 'F' then some (c.toNat - 'A'.toNat + 10)
  else none

/-- Parse the body of a JSON string literal (the opening quote already
consumed): characters and escapes up to the closing quote. -/
def parseStringBody : Str → Option (Str × Str)
  | [] => none
  | '"' :: rest => some ([], rest)
  | '\\' :: esc =>
    match esc with
    | [] => none
    | 'u' :: h1 :: h2 :: h3 :: h4 :: rest =>
      match hexVal h1, hexVal h2, hexVal h3, hexVal h4 with
      | some a, some b, some c, some d =>
        match parseStringBody rest with
        | some (tail, r) => some (Char.ofNat (a * 4096 + b * 256 + c * 16 + d) :: tail, r)
        | none => none
      | _, _, _, _ => none
    | e :: rest =>
      let dec : Option Char :=
        if e = '"' then some '"'
        else if e = '\\' then some '\\'
        else if e = '/' then some '/'
        else if e = 'n' then some '\n'
        else if e = 't' then some '\t'
        else if e = 'r' then some '\r'
        else if e = 'b' then some (Char.ofNat 8)
        else if e = 'f' then some (Char.ofNat 12)
        else none
      match dec with
      | none => none
      | some c =>
        match parseStringBody rest with
        | some (tail, r) => some (c :: tail, r)
        | none => none
  | c :: rest =>
    if c.toNat < 32 then none
    else
      match parseStringBody rest with
      | some (tail, r) => some (c :: tail, r)
      | none => none

/-- ASCII decimal digit. -/
def isDigitCh (c : Char) : Bool :=
  '0' ≤ c && c ≤ '9'

/-- Parse an unsigned run of digits (at least one). -/
def parseDigits : Str → Option (Nat × Str)
  | s =>
    let ds := s.takeWhile isDigitCh
    if ds = [] then none
    else some (ds.foldl (fun acc c => acc * 10 + (c.toNat - '0'.toNat)) 0, s.dropWhile isDigitCh)

/-- Parse a JSON number (the integer fragment the harness's documents could
contain; a fractional part or exponent is not produced by the writer). -/
def parseNumberJ : Str → Option (Json × Str)
  | '-' :: s =>
    match parseDigits s with
    | some (n, rest) => some (.num (-(n : Int)), rest)
    | none => none
  | s =>
    match parseDigits s with
    | some (n, rest) => some (.num (n : Int), rest)
    | none => none

mutual

/-- Parse one JSON value at the head of the input (leading whitespace
allowed), returning it with the unconsumed remainder. -/
def parseValueJ : Nat → Str → Option (Json × Str)
  | 0, _ => none
  | fuel + 1, s =>
    let s := skipJsonWs s
    if startsWith s "null".data then some (.null, s.drop 4)
    else if startsWith s "true".data then some (.bool true, s.drop 4)
    else if startsWith s "false".data then some (.bool false, s.drop 5)
    else
      match s with
      | '"' :: rest =>
        match parseStringBody rest with
        | some (str, r) => some (.str str, r)
        | none => none
      | '[' :: rest =>
        (match skipJsonWs rest with
         | ']' :: r => some (.arr [], r)
         | r =>
           match parseElemsJ fuel r with
           | some (elems, r') => some (.arr elems, r')
           | none => none)
      | '{' :: rest =>
        (match skipJsonWs rest with
         | '}' :: r => some (.obj [], r)
         | r =>
           match parseMembersJ fuel r with
           | some (members, r') => some (.obj members, r')
           | none => none)
      | other => parseNumberJ other

/-- Parse the elements of a nonempty array (after `[`), up to and including
the closing `]`. -/
def parseElemsJ : Nat → Str → Option (List Json × Str)
  | 0, _ => none
  | fuel + 1, s =>
    match parseValueJ fuel s with
    | none => none
    | some (v, rest) =>
      match skipJsonWs rest with
      | ',' :: r =>
        (match parseElemsJ fuel r with
         | some (vs, r') => some (v :: vs, r')
         | none => none)
      | ']' :: r => some ([v], r)
      | _ => none

/-- Parse the members of a nonempty object (after `{`), up to and including
the closing `}`. -/
def parseMembersJ : Nat → Str → Option (List (Str × Json) × Str)
  | 0, _ => none
  | fuel + 1, s =>
    match skipJsonWs s with
    | '"' :: rest =>
      (match parseStringBody rest with
       | none => none
       | some (key, r) =>
         match skipJsonWs r with
         | ':' :: r' =>
           (match parseValueJ fuel r' with
            | none => none
            | some (v, rest') =>
              match skipJsonWs rest' with
              | ',' :: r'' =>
                (match parseMembersJ fuel r'' with
                 | some (ms, rr) => some ((key, v) :: ms, rr)
                 | none => none)
              | '}' :: r'' => some ([(key, v)], r'')
              | _ => none)
         | _ => none)
    | _ => none

end

/-- Python `json.loads(s)`: parse one complete JSON document; fail when nothing
parses or when non-whitespace input remains. -/
def jsonLoads (s : Str) : Option Json :=
  match parseValueJ (s.length + 1) s with
  | some (v, rest) => if skipJsonWs rest = [] then some v else none
  | none => none

/-- Map a fallible function over a list, failing on the first failure (the
list comprehension `[json.loads(line.strip()) for line in f]`, where an
exception aborts the whole comprehension). -/
def mapOptionList (f : α → Option β) : List α → Option (List β)
  | [] => some []
  | a :: t =>
    match f a with
    | none => none
    | some b =>
      match mapOptionList f t with
      | none => none
      | some bs => some (b :: bs)

/-- The baseline read path of `test_usd_checker`: parse every stripped line of
the baseline file as its own JSON record; a `JSONDecodeError` on any line
aborts the read (`none`). -/
def read_baseline_results (lines : List Str) : Option (List Json) :=
  mapOptionList (fun line => jsonLoads (stripStr line)) lines

/-! ## ConversionPipeline paths (`process_file`, roundtrip branch) -/

/-- Source constant `RENDER_OUTPUT_FORMAT = ".jpg"`. -/
def RENDER_OUTPUT_FORMAT : Str := ".jpg".data

/-- Source constant `CONVERTED_SUFFIX = "_roundtrip"`. -/
def CONVERTED_SUFFIX : Str := "_roundtrip".data

/-- Python `os.path.join` for a relative second component. -/
def joinPath (a b : Str) : Str :=
  a ++ "/".data ++ b

/-- Source: `converted_output_path = os.path.join(output_path_folder,
f"{file_name}{CONVERTED_SUFFIX}{RENDER_OUTPUT_FORMAT}")` — the freshly
rendered roundtrip image. -/
def converted_output_path (output_path_folder file_name : Str) : Str :=
  joinPath output_path_folder (file_name ++ CONVERTED_SUFFIX ++ RENDER_OUTPUT_FORMAT)

/-- Source: `converted_baseline_output_path = os.path.join(output_path_folder,
f"{file_name}{CONVERTED_SUFFIX}{RENDER_OUTPUT_FORMAT}")` — the "baseline"
path the verify branch builds for the roundtrip comparison. -/
def converted_baseline_output_path (output_path_folder file_name : Str) : Str :=
  joinPath output_path_folder (file_name ++ CONVERTED_SUFFIX ++ RENDER_OUTPUT_FORMAT)

/-- The pair of paths `process_file` hands to the image comparison in verify
mode (`generate_baseline` false) with `test_type == "roundtrip"`: `none` for
the `sbsar` family (which returns a skip message instead), otherwise
`(converted_baseline_output_path, converted_output_path)`. -/
def roundtrip_comparison_paths (plugin_name output_path_folder file_name : Str) :
    Option (Str × Str) :=
  if plugin_name = "sbsar".data then none
  else some (converted_baseline_output_path output_path_folder file_name,
             converted_output_path output_path_folder file_name)

/-! ## Concrete inputs used by the comparator analysis -/

/-- A 100 × 100 × 3 image, all values `0`. -/
def cexImage1 : Image :=
  ⟨100, 100, 3, fun _ _ _ => 0⟩

/-- A 100 × 100 × 3 image differing from `cexImage1` in exactly one channel of
one pixel: channel `0` of pixel `(0, 0)` is `1`, all other values `0`. -/
def cexImage2 : Image :=
  ⟨100, 100, 3, fun i j k => if i = 0 ∧ j = 0 ∧ k = 0 then 1 else 0⟩

end UsdPluginTest

namespace UsdPluginTest

/-! # Theorems -/

/-! ## Helper lemmas -/

/-- Sum of a constant over `List.range`. -/
theorem sum_map_range_const (n cst : Nat) :
    ((List.range n).map (fun _ => cst)).sum = n * cst := by
  induction n with
  | zero => simp
  | succ n ih => simp [List.range_succ, ih, Nat.succ_mul]

/-- Comparing an image with itself matches on every pixel-channel entry. -/
theorem similarPixels_self (img : Image) : similarPixels img img = totalPixels img := by
  unfold similarPixels totalPixels
  have h3 : ∀ i j : Nat,
      ((List.range img.c).map (fun k => if img.pix i j k = img.pix i j k then 1 else 0)).sum
        = img.c := by
    intro i j
    have : (fun k => if img.pix i j k = img.pix i j k then 1 else 0) = fun _ => 1 := by
      funext k; simp
    rw [this, sum_map_range_const, Nat.mul_one]
  have h2 : ∀ i : Nat,
      ((List.range img.w).map (fun j =>
        ((List.range img.c).map (fun k => if img.pix i j k = img.pix i j k then 1 else 0)).sum)).sum
        = img.w * img.c := by
    intro i
    have : (fun j =>
        ((List.range img.c).map (fun k => if img.pix i j k = img.pix i j k then 1 else 0)).sum)
        = fun _ => img.c := by
      funext j; exact h3 i j
    rw [this, sum_map_range_const]
  have : (fun i =>
      ((List.range img.w).map (fun j =>
        ((List.range img.c).map (fun k => if img.pix i j k = img.pix i j k then 1 else 0)).sum)).sum)
      = fun _ => img.w * img.c := by
    funext i; exact h2 i
  rw [this, sum_map_range_const, Nat.mul_assoc]

/-- Comparing a nonempty image with itself yields ratio `1`. -/
theorem similarityRatio_self (img : Image) (h : 0 < totalPixels img) :
    similarityRatio img img = 1 := by
  unfold similarityRatio
  rw [similarPixels_self]
  have hne : ((totalPixels img : ℚ)) ≠ 0 := by
    exact_mod_cast Nat.pos_iff_ne_zero.mp h
  field_simp

/-! ## Claim theorems -/

/-- C7: whenever at least one of the two image paths fails to decode
(`cv2.imread` returns `None`), `compare_images_with_similarity_threshold`
reports the unreadable comparison-failure verdict (the raised `ValueError`)
and no other outcome, for every threshold and every value of the other
decode. -/
theorem compare_unreadable_on_decode_failure
    (img1 img2 : Option Image) (threshold : ℚ)
    (h : img1 = none ∨ img2 = none) :
    compare_images_with_similarity_threshold img1 img2 threshold
      = .error .unreadable := by
  rcases h with h | h
  · subst h; cases img2 <;> rfl
  · subst h; cases img1 <;> rfl

/-- Witness for C7: with both decodes failed and the default threshold, the
verdict is the unreadable failure. -/
theorem compare_unreadable_on_decode_failure_witness :
    compare_images_with_similarity_threshold none none (19 / 20)
      = .error .unreadable :=
  compare_unreadable_on_decode_failure none none (19 / 20) (Or.inl rfl)

/-- C8: when no baseline record matches the join key, the baseline comparison
of `test_usd_checker` returns early with the skip verdict: it neither fails
nor raises the assertion. -/
theorem missing_baseline_skips
    (current : DiagnosticResult) (input_path : Str)
    (baseline_results : List DiagnosticResult)
    (h : findBaselineEntry baseline_results input_path = none) :
    usd_checker_verdict current input_path baseline_results = .skip ∧
    usd_checker_verdict current input_path baseline_results ≠ .fail := by
  have hv : usd_checker_verdict current input_path baseline_results = .skip := by
    unfold usd_checker_verdict
    rw [h]
  exact ⟨hv, by rw [hv]; simp⟩

/-- Witness for C8: an empty baseline collection never matches, and the
verdict is skip. -/
theorem missing_baseline_skips_witness :
    usd_checker_verdict ⟨"assets/obj/cube.obj".data, true, [], []⟩
      "assets/obj/cube.obj".data [] = .skip ∧
    usd_checker_verdict ⟨"assets/obj/cube.obj".data, true, [], []⟩
      "assets/obj/cube.obj".data [] ≠ .fail :=
  missing_baseline_skips _ _ _ rfl

/-- C2: against a matched baseline record, the regression gate fails exactly
when the current error count exceeds the baseline error count; the verdict
never depends on the warnings (a warning-count increase alone cannot fail the
gate); and in particular baseline errors `{E1}` with current errors `{}`
passes while current errors `{E1, E2}` fails. -/
theorem regression_gate_on_error_counts
    (current baseline : DiagnosticResult) (input_path : Str)
    (baseline_results : List DiagnosticResult)
    (h : findBaselineEntry baseline_results input_path = some baseline) :
    (usd_checker_verdict current input_path baseline_results = .fail ↔
      baseline.errors.length < current.errors.length) ∧
    (∀ w, usd_checker_verdict { current with warnings := w } input_path baseline_results
        = usd_checker_verdict current input_path baseline_results) ∧
    usd_checker_verdict ⟨"k".data, true, [], []⟩ "k".data
      [⟨"k".data, true, [], ["E1".data]⟩] = .pass ∧
    usd_checker_verdict ⟨"k".data, false, [], ["E1".data, "E2".data]⟩ "k".data
      [⟨"k".data, true, [], ["E1".data]⟩] = .fail := by
  have hv : usd_checker_verdict current input_path baseline_results
      = if current.errors.length ≤ baseline.errors.length then .pass else .fail := by
    unfold usd_checker_verdict
    rw [h]
  have hv' : ∀ w, usd_checker_verdict { current with warnings := w } input_path baseline_results
      = if current.errors.length ≤ baseline.errors.length then .pass else .fail := by
    intro w
    unfold usd_checker_verdict
    rw [h]
  refine ⟨?_, ?_, by decide, by decide⟩
  · rw [hv]
    by_cases hle : current.errors.length ≤ baseline.errors.length
    · rw [if_pos hle]
      constructor
      · intro hcon; exact absurd hcon (by simp)
      · intro hlt; omega
    · rw [if_neg hle]
      constructor
      · intro _; omega
      · intro _; rfl
  · intro w
    rw [hv, hv' w]

/-- Witness for C2: instantiated at a singleton baseline collection whose
record matches the join key. -/
theorem regression_gate_on_error_counts_witness :
    (usd_checker_verdict ⟨"k".data, true, [], ["E".data]⟩ "k".data
        [⟨"k".data, true, [], []⟩] = .fail ↔
      (([] : List Str).length < ["E".data].length)) :=
  (regression_gate_on_error_counts ⟨"k".data, true, [], ["E".data]⟩
    ⟨"k".data, true, [], []⟩ "k".data [⟨"k".data, true, [], []⟩] rfl).1

/-- C4: the `filename` field of a `DiagnosticResult` is indeed the last three
path segments joined with `/`, but the baseline comparison of
`test_usd_checker` matches baseline records against the *full* `input_path`,
not against `currentResult.filename`: at this input a baseline record keyed by
the truncated filename exists, the spec's join (on the current record's
`filename` field) finds it, yet the code's lookup finds nothing and the gate
is skipped. -/
theorem baseline_join_key_uses_full_path :
    truncated_filename "/home/user/project/assets/obj/cube.obj".data
      = "assets/obj/cube.obj".data ∧
    findBaselineEntry [⟨"assets/obj/cube.obj".data, true, [], []⟩]
      "/home/user/project/assets/obj/cube.obj".data = none ∧
    specFindBaselineEntry [⟨"assets/obj/cube.obj".data, true, [], []⟩]
      ⟨truncated_filename "/home/user/project/assets/obj/cube.obj".data, true, [], []⟩
      = some ⟨"assets/obj/cube.obj".data, true, [], []⟩ ∧
    usd_checker_verdict
      ⟨truncated_filename "/home/user/project/assets/obj/cube.obj".data, true, [], []⟩
      "/home/user/project/assets/obj/cube.obj".data
      [⟨"assets/obj/cube.obj".data, true, [], []⟩] = .skip := by
  refine ⟨by decide, by decide, by decide, by decide⟩

/-- C10: appending a new record to a readable, valid results document keeps
every prior record unchanged at its original position and adds exactly one
record, the encoding of the new `DiagnosticResult`, at the end. -/
theorem results_append_preserves_prior
    (existing : List Json) (result : DiagnosticResult) :
    (append_usdchecker_result (some existing) result).length = existing.length + 1 ∧
    (∀ i, i < existing.length →
      (append_usdchecker_result (some existing) result)[i]? = existing[i]?) ∧
    (append_usdchecker_result (some existing) result).getLast?
      = some (encodeResult result) := by
  unfold append_usdchecker_result
  refine ⟨by simp, ?_, ?_⟩
  · intro i hi
    simp only [Option.getD_some]
    rw [List.getElem?_append, if_pos hi]
  · simp only [Option.getD_some]
    exact List.getLast?_concat _

/-- Witness for C10: the prior record of a one-record document is still the
first record after the append. -/
theorem results_append_preserves_prior_witness :
    (append_usdchecker_result (some [Json.null]) ⟨"f".data, true, [], []⟩)[0]?
      = [Json.null][0]? :=
  (results_append_preserves_prior [Json.null] ⟨"f".data, true, [], []⟩).2.1 0 (by decide)

/-- C9: in verify mode with `test_type == "roundtrip"` and a non-`sbsar`
plugin family, `process_file` builds the "baseline" comparison path from the
same output folder and file name as the freshly rendered roundtrip image —
the two comparison arguments are the same path — so whenever that single file
decodes to a (nonempty) raster image the comparison at the default threshold
`0.95` passes. -/
theorem roundtrip_verify_compares_file_to_itself
    (decode : Str → Option Image)
    (plugin_name output_path_folder file_name : Str) (img : Image)
    (hplugin : plugin_name ≠ "sbsar".data) :
    roundtrip_comparison_paths plugin_name output_path_folder file_name
      = some (converted_output_path output_path_folder file_name,
              converted_output_path output_path_folder file_name) ∧
    (decode (converted_output_path output_path_folder file_name) = some img →
      0 < totalPixels img →
      compare_images_with_similarity_threshold
        (decode (converted_baseline_output_path output_path_folder file_name))
        (decode (converted_output_path output_path_folder file_name))
        (19 / 20) = .ok true) := by
  have hpaths : converted_baseline_output_path output_path_folder file_name
      = converted_output_path output_path_folder file_name := rfl
  constructor
  · unfold roundtrip_comparison_paths
    rw [if_neg hplugin, hpaths]
  · intro hdec hpos
    rw [hpaths, hdec]
    have hle : (19 / 20 : ℚ) ≤ similarityRatio img img := by
      rw [similarityRatio_self img hpos]
      norm_num
    simp [compare_images_with_similarity_threshold, decide_eq_true hle]

/-- Witness for C9: a 1 × 1 × 1 image decoded at the (identical) two paths
passes the roundtrip comparison. -/
theorem roundtrip_verify_compares_file_to_itself_witness :
    compare_images_with_similarity_threshold
      ((fun _ => some ⟨1, 1, 1, fun _ _ _ => 0⟩) (converted_baseline_output_path "out".data "f".data))
      ((fun _ => some ⟨1, 1, 1, fun _ _ _ => 0⟩) (converted_output_path "out".data "f".data))
      (19 / 20) = .ok true :=
  (roundtrip_verify_compares_file_to_itself (fun _ => some ⟨1, 1, 1, fun _ _ _ => 0⟩)
    "obj".data "out".data "f".data ⟨1, 1, 1, fun _ _ _ => 0⟩ (by decide)).2 rfl (by decide)

/-- Counterexample to C5: a validator line exactly equal to the allowlisted
benign up-axis message is *not* absent from the resulting record — it is the
sole element of the `warnings` list (it is only the `errors` list it is
dropped from). -/
theorem ignorable_line_lands_in_warnings :
    (run_usdchecker_result "a/b/c.usd".data []
        "Stage does not specify an upAxis.".data).warnings
      = ["Stage does not specify an upAxis.".data] ∧
    (run_usdchecker_result "a/b/c.usd".data []
        "Stage does not specify an upAxis.".data).errors = [] := by
  refine ⟨by decide, by decide⟩

/-- C5 as amended: lines containing an allowlisted benign message never appear
in the `errors` list of the resulting `DiagnosticResult` (they are classified
into `warnings` instead of being counted as errors). -/
theorem ignorable_never_in_errors
    (file stdout_str stderr_str : Str) (err : Str)
    (herr : err ∈ (run_usdchecker_result file stdout_str stderr_str).errors)
    (ig : Str) (hig : ig ∈ ignorable_errors) :
    containsSub err ig = false := by
  have hmem : err ∈ nonIgnorableOf (checkerLines stdout_str stderr_str) := herr
  unfold nonIgnorableOf at hmem
  have hall := (List.mem_filter.mp hmem).2
  have := (List.all_eq_true.mp hall) ig hig
  simpa using this

/-- Witness for C5 (amended): a genuine error line of a concrete run carries
no allowlisted benign message. -/
theorem ignorable_never_in_errors_witness :
    containsSub "Bad prim.".data "Stage does not specify an upAxis.".data = false :=
  ignorable_never_in_errors "a/b/c.usd".data [] "Bad prim.".data "Bad prim.".data
    (by decide) "Stage does not specify an upAxis.".data (by decide)

/-- C6: `run_usdchecker` truncates standard output at the `"Total time:"`
marker, dropping everything up to and including that line's terminating
newline (and leaving the string whole when no newline follows); the
`"Write layer via Sdf API:"` marker is consulted only when `"Total time:"` is
absent; and on standard output `"Total time: 1s\nSuccess!\r\n"` with empty
standard error the record passes with no warnings and no errors. -/
theorem usdchecker_truncation_behaviour :
    run_usdchecker_result "a/b/c.usd".data "Total time: 1s\nSuccess!\r\n".data []
      = ⟨"a/b/c.usd".data, true, [], []⟩ ∧
    (∀ s i j, strFind s total_time_marker = some i →
      strFindFrom s "\n".data i = some j →
      truncateCheckerOutput s = s.drop (j + 1)) ∧
    (∀ s i, strFind s total_time_marker = some i →
      strFindFrom s "\n".data i = none →
      truncateCheckerOutput s = s) ∧
    (∀ s i j, strFind s total_time_marker = none →
      strFind s write_layer_marker = some i →
      strFindFrom s "\n".data i = some j →
      truncateCheckerOutput s = s.drop (j + 1)) ∧
    (∀ s, strFind s total_time_marker = none →
      strFind s write_layer_marker = none →
      truncateCheckerOutput s = s) := by
  refine ⟨by decide, ?_, ?_, ?_, ?_⟩
  · intro s i j h1 h2
    simp [truncateCheckerOutput, h1, h2]
  · intro s i h1 h2
    simp [truncateCheckerOutput, h1, h2]
  · intro s i j h1 h2 h3
    simp [truncateCheckerOutput, h1, h2, h3]
  · intro s h1 h2
    simp [truncateCheckerOutput, h1, h2]

/-- Witness for C6: the marker at index `0` and the newline at index `14` of a
concrete output drop exactly the first line. -/
theorem usdchecker_truncation_behaviour_witness :
    truncateCheckerOutput "Total time: 1s\nFailed!".data
      = "Total time: 1s\nFailed!".data.drop (14 + 1) :=
  usdchecker_truncation_behaviour.2.1 "Total time: 1s\nFailed!".data 0 14
    (by decide) (by decide)

/-- C3: the results document that `run_usdchecker` writes (one JSON array,
pretty-printed over several lines) cannot be read back by the per-line
baseline reader of `test_usd_checker`: on any document holding at least one
record the very first line `"["` already fails `json.loads`, so the read
aborts and the write-then-read round trip never reproduces the written
sequence. -/
theorem baseline_roundtrip_read_fails
    (results : List DiagnosticResult) (h : results ≠ []) :
    read_baseline_results (results_document_lines results) = none := by
  match results, h with
  | r :: rest, _ => rfl

/-- Witness for C3: the reader fails on the document of one concrete record. -/
theorem baseline_roundtrip_read_fails_witness :
    read_baseline_results
      (results_document_lines [⟨"assets/obj/cube.obj".data, true, [], []⟩]) = none :=
  baseline_roundtrip_read_fails [⟨"assets/obj/cube.obj".data, true, [], []⟩] (by simp)

/-- On two decoded images of equal shape, the comparison returns the
thresholded similarity ratio. -/
theorem compare_some_some (i1 i2 : Image) (t : ℚ)
    (hh : i1.h = i2.h) (hw : i1.w = i2.w) (hc : i1.c = i2.c) :
    compare_images_with_similarity_threshold (some i1) (some i2) t
      = .ok (decide (t ≤ similarityRatio i1 i2)) := by
  simp [compare_images_with_similarity_threshold, hh, hw, hc]

/-- The two counterexample images agree on `29999` of their `30000`
pixel-channel entries. -/
theorem cex_similarPixels : similarPixels cexImage1 cexImage2 = 29999 := by
  decide

/-- Of the `10000` pixels, `9999` agree on all channels. -/
theorem cex_specMatchingPixelCount :
    specMatchingPixelCount cexImage1 cexImage2 = 9999 := by
  decide

/-- The ratio the code computes on the counterexample images. -/
theorem cex_similarityRatio :
    similarityRatio cexImage1 cexImage2 = 29999 / 30000 := by
  unfold similarityRatio
  rw [cex_similarPixels]
  have ht : totalPixels cexImage1 = 30000 := by decide
  rw [ht]
  norm_num

/-- The ratio the spec describes on the counterexample images. -/
theorem cex_specSimilarityRatio :
    specSimilarityRatio cexImage1 cexImage2 = 9999 / 10000 := by
  unfold specSimilarityRatio
  rw [cex_specMatchingPixelCount]
  have ht : (cexImage1.h * cexImage1.w : Nat) = 10000 := by decide
  rw [ht]
  norm_num

/-- Counterexample to C1: on two 100 × 100 × 3 images differing in exactly one
channel of one pixel (`29999` of `30000` entries agree, `totalPixels` is
`30000`), the code's `similarityRatio` is `29999/30000`, not the claimed
`9999/10000`, and the comparison at threshold `0.99991` *passes* instead of
failing — the ratio counts pixel-channel entries, so partial channel
agreement does count. -/
theorem similarity_ratio_is_per_channel :
    cexImage1.h = 100 ∧ cexImage1.w = 100 ∧ cexImage1.c = 3 ∧
    cexImage2.h = 100 ∧ cexImage2.w = 100 ∧ cexImage2.c = 3 ∧
    similarPixels cexImage1 cexImage2 = 29999 ∧
    totalPixels cexImage1 = 30000 ∧
    specMatchingPixelCount cexImage1 cexImage2 = 9999 ∧
    similarityRatio cexImage1 cexImage2 ≠ 9999 / 10000 ∧
    similarityRatio cexImage1 cexImage2 ≠ specSimilarityRatio cexImage1 cexImage2 ∧
    compare_images_with_similarity_threshold (some cexImage1) (some cexImage2)
      (99991 / 100000) = .ok true := by
  have h1 := cex_similarityRatio
  have h2 := cex_specSimilarityRatio
  refine ⟨rfl, rfl, rfl, rfl, rfl, rfl, cex_similarPixels, rfl,
    cex_specMatchingPixelCount, ?_, ?_, ?_⟩
  · rw [h1]; norm_num
  · rw [h1, h2]; norm_num
  · have hle : (99991 / 100000 : ℚ) ≤ similarityRatio cexImage1 cexImage2 := by
      rw [h1]; norm_num
    rw [compare_some_some cexImage1 cexImage2 _ rfl rfl rfl, decide_eq_true hle]

/-- C1 as amended: `similarityRatio` is (number of pixel-channel entries that
match exactly) / (height · width · channels), so a pixel with partial channel
agreement contributes its matching channels; for two 100 × 100 × 3 images
differing in exactly one channel of one pixel the ratio is `29999/30000`
(≈ 0.99997), and the comparison passes both at threshold `0.95` and at
threshold `0.99991`. -/
theorem similarity_ratio_per_channel_amended :
    similarityRatio cexImage1 cexImage2 = 29999 / 30000 ∧
    specSimilarityRatio cexImage1 cexImage2 = 9999 / 10000 ∧
    compare_images_with_similarity_threshold (some cexImage1) (some cexImage2)
      (19 / 20) = .ok true ∧
    compare_images_with_similarity_threshold (some cexImage1) (some cexImage2)
      (99991 / 100000) = .ok true := by
  have h1 := cex_similarityRatio
  refine ⟨h1, cex_specSimilarityRatio, ?_, ?_⟩
  · have hle : (19 / 20 : ℚ) ≤ similarityRatio cexImage1 cexImage2 := by
      rw [h1]; norm_num
    rw [compare_some_some cexImage1 cexImage2 _ rfl rfl rfl, decide_eq_true hle]
  · have hle : (99991 / 100000 : ℚ) ≤ similarityRatio cexImage1 cexImage2 := by
      rw [h1]; norm_num
    rw [compare_some_some cexImage1 cexImage2 _ rfl rfl rfl, decide_eq_true hle]

end UsdPluginTest
